import Mathlib

/-!
Shallow embedding of the webhook API client (`webhook.go` of the
PayPal-Go-SDK fork) and proofs about the claims of its specification.

The repository is CRUD-style glue: every operation builds a URL, optionally
a typed JSON body, delegates the network exchange to the shared collaborator
(`NewRequest` / `SendWithAuth`, external to `webhook.go`), and applies light
post-conditions.  The embedding therefore models each operation as a pure
function from the client configuration, the operation's arguments, and the
explicit outcomes of the external collaborator (request construction and
authenticated send) to the trace of requests handed to the collaborator and
the returned value/error.  Go pointers that may be nil are modelled as
`Option`; Go's `error` is modelled as `Option GoError`.
-/

namespace PaypalSdk

/-- Go `error` value: modelled by its message string. -/
structure GoError where
  msg : String
deriving DecidableEq, Repr

/-- Modelled from the spec: the shared API client value.  It holds the base
URL; credentials and the transport live in the external collaborator and do
not influence any claim. -/
structure Client where
  APIBase : String
deriving DecidableEq, Repr

/-- Modelled from the spec: an instant of the external `time.Time` type,
represented as a signed offset (in seconds) from Go's zero time.  `IsZero`
holds exactly at offset zero.  The RFC3339 formatting performed by the
external `time` package is kept abstract (see `UrlLib`). -/
structure GoTime where
  sec : Int
deriving DecidableEq, Repr

/-- Go `t.IsZero()`: the time is the zero instant. -/
def GoTime.isZero (t : GoTime) : Bool :=
  t.sec == 0

/-- Modelled from the spec: an event-type descriptor (the spec's data model
lists Webhook event_types as a list of event-type identifiers). -/
structure WebhookEventType where
  Name : String
deriving DecidableEq, Repr

/-- Modelled from the spec: the `Webhook` record.  The spec's data-model
table names the key fields id, url and event_types; the record's remaining
non-key fields (server-provided metadata such as HATEOAS links) are
represented abstractly by `Links`. -/
structure Webhook where
  ID : String
  URL : String
  EventTypes : List WebhookEventType
  Links : List String
deriving DecidableEq, Repr

/-- The zero value `Webhook{}`. -/
def Webhook.zero : Webhook :=
  { ID := "", URL := "", EventTypes := [], Links := [] }

/-- The value stored in a `WebhookPatch`'s `Value` field (Go `interface{}`):
`SetWebhook` stores either the webhook's URL string or its event-type
list. -/
inductive PatchValue where
  | str (s : String)
  | eventTypes (ts : List WebhookEventType)
deriving DecidableEq, Repr

/-- Modelled from the spec: a JSON-Patch-style partial update operation with
an operation name, a target field path, and a replacement value. -/
structure WebhookPatch where
  Operation : String
  Path : String
  Value : PatchValue
deriving DecidableEq, Repr

/-- Modelled from the spec: the request payload naming target webhook ids
for a resend. -/
structure WebhookIDList where
  WebhookIDs : List String
deriving DecidableEq, Repr

/-- Modelled from the spec: a delivered/simulated webhook notification with
identity `ID`; the resource payload is kept abstract as a string. -/
structure Event where
  ID : String
  EventType : String
  Resource : String
deriving DecidableEq, Repr

/-- The zero value `Event{}`. -/
def Event.zero : Event :=
  { ID := "", EventType := "", Resource := "" }

/-- Modelled from the spec: the simulation request payload posted by
`SimulateWebhookEvent`; its fields are opaque to every claim. -/
structure SimulateEventReq where
  payload : String
deriving DecidableEq, Repr

/-- Modelled from the spec: the signature-verification payload posted by
`VerifyWebhookSignature`; its fields are opaque to every claim. -/
structure WebhookRequest where
  payload : String
deriving DecidableEq, Repr

/-- Modelled from the spec: the server's verification verdict. -/
structure VerificationStatus where
  Status : String
deriving DecidableEq, Repr

/-- The filter for `GetWebhookEvents`, with the field types dictated by
their uses in the source (`PageSize` compared with 0 and formatted with
`strconv.FormatInt`; the times tested with `IsZero` and formatted RFC3339;
the last two compared with the empty string). -/
structure GetWebhookEventsFilter where
  PageSize : Int
  StartTime : GoTime
  EndTime : GoTime
  TransactionID : String
  EventType : String
deriving DecidableEq, Repr

/-- The typed body handed to the request-construction collaborator (the Go
code passes the typed value; JSON serialization happens inside the external
`NewRequest`). -/
inductive ReqBody where
  | empty
  | webhookBody (w : Webhook)
  | patches (ps : List WebhookPatch)
  | idList (l : WebhookIDList)
  | simulate (r : SimulateEventReq)
  | verifyReq (r : WebhookRequest)
deriving DecidableEq, Repr

/-- An HTTP request as built by the client: method, target URL, typed body. -/
structure Request where
  method : String
  url : String
  body : ReqBody
deriving DecidableEq, Repr

/-- Outcome of the external request construction (`c.NewRequest` or
`http.NewRequest`): it either fails with an error or succeeds. -/
inductive ReqOutcome where
  | fail (e : GoError)
  | ok
deriving DecidableEq, Repr

/-- Outcome of the external `SendWithAuth` collaborator at the level of the
decoded output value: a failure (transport, auth, or decode) leaving the out
variable holding `sofar`, or a success with the decoded value. -/
inductive SendOutcome (α : Type) where
  | fail (e : GoError) (sofar : α)
  | ok (v : α)
deriving DecidableEq, Repr

/-- What an operation did: the requests it handed to `SendWithAuth`, the
returned pointer (modelled as `Option`), and the returned error. -/
structure OpResult (α : Type) where
  sent : List Request
  result : Option α
  err : Option GoError
deriving DecidableEq, Repr

/-! ### The `url.Values` model

Go's `url.Values` is `map[string][]string`.  `var qs url.Values` declares a
nil map: `Set` on a nil map is an assignment to an entry of a nil map, which
panics at runtime, while `Encode` on a nil map returns the empty string.
`none` models the nil map; a panic is modelled as `none` in the surrounding
`Option`. -/

/-- Go `url.Values`: `none` is the nil map, `some m` an allocated map given
as an association list from keys to value lists. -/
abbrev Values := Option (List (String × List String))

/-- Go `v.Set(key, value)`: replaces the key's values with the single given
value.  On the nil map this panics, modelled by returning `none`. -/
def Values.set (v : Values) (key val : String) : Option Values :=
  match v with
  | none => none
  | some m => some (some ((m.filter (fun p => p.1 ≠ key)) ++ [(key, [val])]))

/-- Insertion into a key-sorted association list, for `Values.encode`. -/
def insertSorted (p : String × List String) :
    List (String × List String) → List (String × List String)
  | [] => [p]
  | q :: qs => if p.1 ≤ q.1 then p :: q :: qs else q :: insertSorted p qs

/-- Sorting by key, as Go's `Encode` sorts the map keys. -/
def sortByKey : List (String × List String) → List (String × List String)
  | [] => []
  | p :: ps => insertSorted p (sortByKey ps)

/-- The `k=v` components of the encoded query, keys and values escaped by
the given escaping function. -/
def encodePairs (esc : String → String) :
    List (String × List String) → List String
  | [] => []
  | (k, vs) :: rest =>
    vs.map (fun v => esc k ++ "=" ++ esc v) ++ encodePairs esc rest

/-- Go `v.Encode()`: the empty string on the nil map, otherwise the sorted,
escaped `k=v` pairs joined by `&`. -/
def Values.encode (esc : String → String) (v : Values) : String :=
  match v with
  | none => ""
  | some m => String.intercalate "&" (encodePairs esc (sortByKey m))

/-- Modelled from the spec: the two pure helpers of the external standard
library that `GetWebhookEvents` uses — `t.UTC().Format(time.RFC3339)` and
`url.QueryEscape` (applied inside `Encode`).  Both are kept abstract; every
theorem about the query builder holds for all instantiations. -/
structure UrlLib where
  fmtTimeRFC3339UTC : GoTime → String
  queryEscape : String → String

/-- The query-string construction block of `GetWebhookEvents` (lines
208–223 of `webhook.go`): a nil `url.Values`, one conditional `Set` per
non-zero filter field, then `Encode`.  `none` models the runtime panic of
`Set` on the nil map. -/
def getWebhookEventsQuery (lib : UrlLib) (f : GetWebhookEventsFilter) :
    Option String := do
  let qs0 : Values := none
  let qs1 ← if f.PageSize ≠ 0 then
      Values.set qs0 "page_size" (toString f.PageSize)
    else pure qs0
  let qs2 ← if !f.StartTime.isZero then
      Values.set qs1 "start_time" (lib.fmtTimeRFC3339UTC f.StartTime)
    else pure qs1
  let qs3 ← if !f.EndTime.isZero then
      Values.set qs2 "end_time" (lib.fmtTimeRFC3339UTC f.EndTime)
    else pure qs2
  let qs4 ← if f.TransactionID ≠ "" then
      Values.set qs3 "transaction_id" f.TransactionID
    else pure qs3
  let qs5 ← if f.EventType ≠ "" then
      Values.set qs4 "event_type" f.EventType
    else pure qs4
  pure (Values.encode lib.queryEscape qs5)

/-- The URL `GetWebhookEvents` targets (line 225 of `webhook.go`):
`fmt.Sprintf("%s%s%s", c.APIBase, "/v1/notifications/webhook-events",
qs.Encode())` — the encoded query is appended directly, with no `?`
separator.  `none` propagates the panic of the query construction. -/
def getWebhookEventsURL (lib : UrlLib) (c : Client)
    (f : GetWebhookEventsFilter) : Option String :=
  (getWebhookEventsQuery lib f).map
    (fun q => c.APIBase ++ "/v1/notifications/webhook-events" ++ q)

/-! ### JSON decoding model for `GetWebhooks`

`GetWebhooks` decides the shape of the decode by the type of the out
variable it passes to `SendWithAuth`: a bare `[]Webhook`.  The decoding
itself is performed by the external collaborator via Go's `encoding/json`,
modelled here on a small JSON value type, restricted to the response shapes
the claims exercise (arrays, envelope objects, null). -/

/-- A JSON value. -/
inductive Json where
  | null
  | bool (b : Bool)
  | num (n : Int)
  | str (s : String)
  | arr (xs : List Json)
  | obj (kvs : List (String × Json))

/-- Modelled from the spec: Go `encoding/json` decoding of a JSON value into
a `string`; `null` keeps the zero value, anything but a string is a type
error. -/
def decodeString : Json → Except GoError String
  | .null => .ok ""
  | .str s => .ok s
  | _ => .error { msg := "json: cannot unmarshal JSON value into Go value of type string" }

/-- Modelled from the spec: decoding into a `WebhookEventType` record; keys
other than `name` are ignored, `null` keeps the zero value. -/
def decodeEventType : Json → Except GoError WebhookEventType
  | .null => .ok { Name := "" }
  | .obj kvs =>
    let rec go (acc : WebhookEventType) :
        List (String × Json) → Except GoError WebhookEventType
      | [] => .ok acc
      | (k, v) :: rest =>
        if k = "name" then
          match decodeString v with
          | .ok s => go { acc with Name := s } rest
          | .error e => .error e
        else go acc rest
    go { Name := "" } kvs
  | _ => .error { msg := "json: cannot unmarshal JSON value into Go value of type paypalsdk.WebhookEventType" }

/-- Modelled from the spec: decoding into `[]WebhookEventType`. -/
def decodeEventTypeList : Json → Except GoError (List WebhookEventType)
  | .null => .ok []
  | .arr xs =>
    let rec go (acc : List WebhookEventType) :
        List Json → Except GoError (List WebhookEventType)
      | [] => .ok acc
      | x :: rest =>
        match decodeEventType x with
        | .ok t => go (acc ++ [t]) rest
        | .error e => .error e
    go [] xs
  | _ => .error { msg := "json: cannot unmarshal JSON value into Go value of type []paypalsdk.WebhookEventType" }

/-- Modelled from the spec: decoding into `[]string`. -/
def decodeStringList : Json → Except GoError (List String)
  | .null => .ok []
  | .arr xs =>
    let rec go (acc : List String) : List Json → Except GoError (List String)
      | [] => .ok acc
      | x :: rest =>
        match decodeString x with
        | .ok s => go (acc ++ [s]) rest
        | .error e => .error e
    go [] xs
  | _ => .error { msg := "json: cannot unmarshal JSON value into Go value of type []string" }

/-- Setting one decoded field of a `Webhook`; unknown keys are ignored as Go
does. -/
def applyWebhookField (w : Webhook) : String × Json → Except GoError Webhook
  | ("id", v) => (decodeString v).map (fun s => { w with ID := s })
  | ("url", v) => (decodeString v).map (fun s => { w with URL := s })
  | ("event_types", v) => (decodeEventTypeList v).map (fun ts => { w with EventTypes := ts })
  | ("links", v) => (decodeStringList v).map (fun ls => { w with Links := ls })
  | (_, _) => .ok w

/-- Modelled from the spec: decoding into a `Webhook` record. -/
def decodeWebhook : Json → Except GoError Webhook
  | .null => .ok Webhook.zero
  | .obj kvs =>
    let rec go (acc : Webhook) : List (String × Json) → Except GoError Webhook
      | [] => .ok acc
      | kv :: rest =>
        match applyWebhookField acc kv with
        | .ok w2 => go w2 rest
        | .error e => .error e
    go Webhook.zero kvs
  | _ => .error { msg := "json: cannot unmarshal JSON value into Go value of type paypalsdk.Webhook" }

/-- Element-wise decoding of a JSON array into webhooks, keeping the
decoded elements gathered before a failing element. -/
def decodeWebhookArr : List Json → List Webhook → List Webhook × Option GoError
  | [], acc => (acc, none)
  | x :: xs, acc =>
    match decodeWebhook x with
    | .ok w => decodeWebhookArr xs (acc ++ [w])
    | .error e => (acc, some e)

/-- Modelled from the spec: Go `encoding/json` unmarshalling into the
`[]Webhook` out variable (`init` is its prior value, `none` the nil slice):
`null` leaves it untouched; an array yields the decoded elements (an empty
array yields the empty non-nil slice); any other JSON value is a type
error that leaves the slice untouched. -/
def unmarshalWebhookSlice (init : Option (List Webhook)) :
    Json → Option (List Webhook) × Option GoError
  | .null => (init, none)
  | .arr xs =>
    match decodeWebhookArr xs [] with
    | (ws, e) => (some ws, e)
  | _ => (init, some { msg := "json: cannot unmarshal JSON value into Go value of type []paypalsdk.Webhook" })

/-- Modelled from the spec (not from the source, for comparison with it):
"Server response is wrapped in an envelope keyed by a `webhooks` field; the
client decodes that wrapper and returns only the inner ordered sequence.
Returns an empty sequence, never null, when there are none." -/
def getWebhooksSpecShape (body : Json) : Option (List Webhook) × Option GoError :=
  match body with
  | .obj kvs =>
    match kvs.lookup "webhooks" with
    | some inner =>
      match unmarshalWebhookSlice (some []) inner with
      | (none, e) => (some [], e)
      | (some ws, e) => (some ws, e)
    | none => (some [], none)
  | _ => (none, some { msg := "json: response is not a webhooks envelope" })

/-! ### The operations

Each operation is a pure function of the client, its arguments, and the
outcomes of the two external collaborator calls it makes; it returns the
requests handed to `SendWithAuth`, the returned pointer and the returned
error. -/

/-- `CreateWebhook` (lines 18–32): POST the webhook to the collection URL;
`&Webhook{}` (a non-nil pointer) on request-construction error, the
decoded-into response pointer otherwise. -/
def createWebhook (c : Client) (w : Webhook) (reqOut : ReqOutcome)
    (send : SendOutcome Webhook) : OpResult Webhook :=
  let url := c.APIBase ++ "/v1/notifications/webhooks"
  match reqOut with
  | .fail e => { sent := [], result := some Webhook.zero, err := some e }
  | .ok =>
    let req : Request := { method := "POST", url := url, body := .webhookBody w }
    match send with
    | .fail e sofar => { sent := [req], result := some sofar, err := some e }
    | .ok v => { sent := [req], result := some v, err := none }

/-- `GetWebhook` (lines 37–56): GET by id; the returned pointer `&w` is
never nil; after a successful send, a decoded empty `ID` is turned into a
"not found" error naming the requested id. -/
def getWebhook (c : Client) (webhookID : String) (reqOut : ReqOutcome)
    (send : SendOutcome Webhook) : OpResult Webhook :=
  let url := c.APIBase ++ "/v1/notifications/webhooks/" ++ webhookID
  match reqOut with
  | .fail e => { sent := [], result := some Webhook.zero, err := some e }
  | .ok =>
    let req : Request := { method := "GET", url := url, body := .empty }
    match send with
    | .fail e sofar => { sent := [req], result := some sofar, err := some e }
    | .ok w =>
      if w.ID = "" then
        { sent := [req], result := some w,
          err := some { msg := "paypalsdk: unable to get web webhook with ID = " ++ webhookID } }
      else { sent := [req], result := some w, err := none }

/-- Outcome of the HTTP exchange for `GetWebhooks`, before decoding: a
transport/auth failure, or a response body. -/
inductive HttpOutcome where
  | fail (e : GoError)
  | ok (body : Json)

/-- `GetWebhooks` (lines 61–76): GET the collection and decode the response
body directly into the bare `[]Webhook` out variable `ws` (initially the
nil slice); the slice and the error of the exchange are returned as they
stand. -/
def getWebhooks (c : Client) (reqOut : ReqOutcome) (http : HttpOutcome) :
    OpResult (List Webhook) :=
  let ws : Option (List Webhook) := none
  match reqOut with
  | .fail e => { sent := [], result := ws, err := some e }
  | .ok =>
    let req : Request :=
      { method := "GET", url := c.APIBase ++ "/v1/notifications/webhooks", body := .empty }
    match http with
    | .fail e => { sent := [req], result := ws, err := some e }
    | .ok body =>
      match unmarshalWebhookSlice ws body with
      | (ws2, e) => { sent := [req], result := ws2, err := e }

/-- `SetWebhook` (lines 81–112): reject an empty `ID` before any network
activity; otherwise POST exactly two `replace` patches (`/url`,
`/event_types`) to the webhook's resource path. -/
def setWebhook (c : Client) (w : Webhook) (reqOut : ReqOutcome)
    (sendErr : Option GoError) : List Request × Option GoError :=
  if w.ID = "" then ([], some { msg := "paypalsdk: no ID specified for Webhook" })
  else
    let url := c.APIBase ++ "/v1/notifications/webhooks/" ++ w.ID
    let p : List WebhookPatch :=
      [ { Operation := "replace", Path := "/url", Value := .str w.URL },
        { Operation := "replace", Path := "/event_types", Value := .eventTypes w.EventTypes } ]
    match reqOut with
    | .fail e => ([], some e)
    | .ok => ([{ method := "POST", url := url, body := .patches p }], sendErr)

/-- `DeleteWebhook` (lines 117–131): DELETE the resource path built from
the given id — there is no validation of the id. -/
def deleteWebhook (c : Client) (webhookID : String) (reqOut : ReqOutcome)
    (sendErr : Option GoError) : List Request × Option GoError :=
  let url := c.APIBase ++ "/v1/notifications/webhooks/" ++ webhookID
  match reqOut with
  | .fail e => ([], some e)
  | .ok => ([{ method := "DELETE", url := url, body := .empty }], sendErr)

/-- `GetWebhookEvent` (lines 156–175): GET an event by id; same non-nil
pointer and empty-`ID`-means-not-found post-condition as `GetWebhook`. -/
def getWebhookEvent (c : Client) (eventID : String) (reqOut : ReqOutcome)
    (send : SendOutcome Event) : OpResult Event :=
  let url := c.APIBase ++ "/v1/notifications/webhook-events/" ++ eventID
  match reqOut with
  | .fail e => { sent := [], result := some Event.zero, err := some e }
  | .ok =>
    let req : Request := { method := "GET", url := url, body := .empty }
    match send with
    | .fail e sofar => { sent := [req], result := some sofar, err := some e }
    | .ok ev =>
      if ev.ID = "" then
        { sent := [req], result := some ev,
          err := some { msg := "paypalsdk: unable to get web event with ID = " ++ eventID } }
      else { sent := [req], result := some ev, err := none }

/-- `ResendWebhookEvent` (lines 180–200): POST the webhook-id list to the
event's `/resend` sub-resource; `nil` is returned on every error path and
the decoded event on success. -/
def resendWebhookEvent (c : Client) (eventID : String) (webhookIDs : List String)
    (reqOut : ReqOutcome) (send : SendOutcome Event) : OpResult Event :=
  let url := c.APIBase ++ "/v1/notifications/webhook-events/" ++ eventID ++ "/resend"
  let w : WebhookIDList := { WebhookIDs := webhookIDs }
  match reqOut with
  | .fail e => { sent := [], result := none, err := some e }
  | .ok =>
    let req : Request := { method := "POST", url := url, body := .idList w }
    match send with
    | .fail e _ => { sent := [req], result := none, err := some e }
    | .ok ev => { sent := [req], result := some ev, err := none }

/-- `SimulateWebhookEvent` (lines 242–261): POST the simulation request;
`nil` on every error path, the decoded event on success.  The diagnostic
log of the marshalled body (lines 247–248) is a side effect with no bearing
on the returned value and is not modelled. -/
def simulateWebhookEvent (c : Client) (r : SimulateEventReq) (reqOut : ReqOutcome)
    (send : SendOutcome Event) : OpResult Event :=
  let url := c.APIBase ++ "/v1/notifications/simulate-event"
  match reqOut with
  | .fail e => { sent := [], result := none, err := some e }
  | .ok =>
    let req : Request := { method := "POST", url := url, body := .simulate r }
    match send with
    | .fail e _ => { sent := [req], result := none, err := some e }
    | .ok ev => { sent := [req], result := some ev, err := none }

/-- `VerifyWebhookSignature` (lines 266–282): POST the verification payload;
`nil` on every error path, the decoded verdict on success. -/
def verifyWebhookSignature (c : Client) (r : WebhookRequest) (reqOut : ReqOutcome)
    (send : SendOutcome VerificationStatus) : OpResult VerificationStatus :=
  let url := c.APIBase ++ "/v1/notifications/verify-webhook-signature"
  match reqOut with
  | .fail e => { sent := [], result := none, err := some e }
  | .ok =>
    let req : Request := { method := "POST", url := url, body := .verifyReq r }
    match send with
    | .fail e _ => { sent := [req], result := none, err := some e }
    | .ok v => { sent := [req], result := some v, err := none }

/-! ### Concrete fixtures used by closed theorems and witnesses -/

/-- A concrete instantiation of the abstract standard-library helpers. -/
def sampleLib : UrlLib :=
  { fmtTimeRFC3339UTC := fun _ => "", queryEscape := fun s => s }

/-- A concrete client configuration. -/
def sampleClient : Client :=
  { APIBase := "https://api.sandbox.paypal.com" }

/-- The all-zero `GetWebhookEventsFilter`. -/
def emptyEventsFilter : GetWebhookEventsFilter :=
  { PageSize := 0, StartTime := { sec := 0 }, EndTime := { sec := 0 },
    TransactionID := "", EventType := "" }

/-- The envelope-shaped list response with an empty server-side collection:
`{"webhooks": []}`. -/
def envelopeEmptyBody : Json :=
  Json.obj [("webhooks", Json.arr [])]

/-- A concrete webhook with a non-empty id. -/
def sampleWebhook : Webhook :=
  { ID := "wh_1", URL := "https://example.com/hook",
    EventTypes := [{ Name := "PAYMENT.SALE.COMPLETED" }], Links := [] }

/-! ### Shared lemmas -/

/-- The query construction of `GetWebhookEvents` either panics (any filter
field non-zero makes `Set` hit the nil map) or yields the empty query (all
fields zero, `Encode` of the nil map). -/
theorem getWebhookEventsQuery_shape (lib : UrlLib) (f : GetWebhookEventsFilter) :
    getWebhookEventsQuery lib f = none ∨ getWebhookEventsQuery lib f = some "" := by
  unfold getWebhookEventsQuery
  by_cases h1 : f.PageSize ≠ 0 <;>
  by_cases h2 : (!f.StartTime.isZero) = true <;>
  by_cases h3 : (!f.EndTime.isZero) = true <;>
  by_cases h4 : f.TransactionID ≠ "" <;>
  by_cases h5 : f.EventType ≠ "" <;>
  simp [h1, h2, h3, h4, h5, Values.set, Values.encode, bind, Option.bind]

/-! ### The claims -/

/-- Claim C1.  The claim says: all filter fields unset gives a query string
with no parameters; only `PageSize=50` set gives exactly `page_size=50`;
`StartTime` set gives an RFC3339 UTC `start_time` parameter.  Only the
first part holds.  `var qs url.Values` in the source is a nil map, so the
`qs.Set` performed for any non-zero field is an assignment to an entry of a
nil map — a runtime panic (modelled `none`): with `PageSize=50`, or with
`StartTime` set, no query string is ever produced, for every choice of the
abstract time-formatting and escaping helpers. -/
theorem claim_C1_events_filter_query :
    ∀ lib : UrlLib,
      getWebhookEventsQuery lib emptyEventsFilter = some "" ∧
      getWebhookEventsQuery lib { emptyEventsFilter with PageSize := 50 } = none ∧
      getWebhookEventsQuery lib
        { emptyEventsFilter with StartTime := { sec := 1445401165 } } = none := by
  intro lib
  exact ⟨rfl, rfl, rfl⟩

/-- Claim C2, counterexample.  On the envelope-shaped response
`{"webhooks": []}` — the empty server-side collection in exactly the wrapper
shape the claim describes — `GetWebhooks` does not return the inner empty
sequence: the decode of an object into the bare `[]Webhook` out variable is
a type error, so the call returns the nil slice and an error, while the
spec-described envelope decoding would return the empty sequence with no
error. -/
theorem claim_C2_counterexample :
    (getWebhooks sampleClient .ok (.ok envelopeEmptyBody)).result = none ∧
    (getWebhooks sampleClient .ok (.ok envelopeEmptyBody)).err =
      some { msg := "json: cannot unmarshal JSON value into Go value of type []paypalsdk.Webhook" } ∧
    getWebhooksSpecShape envelopeEmptyBody = (some [], none) :=
  ⟨rfl, rfl, rfl⟩

/-- Claim C2, amended.  `GetWebhooks` decodes the response body directly as
a bare JSON array of webhooks, with no envelope: a bare empty-array
response yields the empty (non-nil) sequence and no error, while an
envelope object keyed by `webhooks` yields a decode type error and the nil
slice. -/
theorem claim_C2_bare_array_decode :
    ∀ (c : Client) (kvs : List (String × Json)),
      getWebhooks c .ok (.ok (Json.arr [])) =
        { sent := [{ method := "GET", url := c.APIBase ++ "/v1/notifications/webhooks",
                     body := .empty }],
          result := some [], err := none } ∧
      (getWebhooks c .ok (.ok (Json.obj kvs))).result = none ∧
      (getWebhooks c .ok (.ok (Json.obj kvs))).err.isSome = true := by
  intro c kvs
  exact ⟨rfl, rfl, rfl⟩

/-- Claim C3, counterexample.  `DeleteWebhook` invoked with the empty
webhook id is not rejected: a DELETE request for the collection path with a
trailing slash is handed to the authenticated-send collaborator (the
network call is made) and, when that send succeeds, no error at all is
returned — there is no empty-id validation in `DeleteWebhook`. -/
theorem claim_C3_counterexample :
    (deleteWebhook sampleClient "" .ok none).1 =
      [{ method := "DELETE",
         url := "https://api.sandbox.paypal.com/v1/notifications/webhooks/",
         body := .empty }] ∧
    (deleteWebhook sampleClient "" .ok none).2 = none :=
  ⟨rfl, rfl⟩

/-- Claim C3, amended.  `DeleteWebhook` performs no id validation: for
every id, the empty string included, it issues a DELETE to
`/v1/notifications/webhooks/{id}` and returns the outcome of the send. -/
theorem claim_C3_delete_no_validation :
    ∀ (c : Client) (webhookID : String) (sendErr : Option GoError),
      deleteWebhook c webhookID .ok sendErr =
        ([{ method := "DELETE",
            url := c.APIBase ++ "/v1/notifications/webhooks/" ++ webhookID,
            body := .empty }], sendErr) := by
  intro c webhookID sendErr
  rfl

/-- Claim C4.  The claim says the URL is the base followed by
`/v1/notifications/webhook-events?{query}` with a `?` between path and
query.  The source formats `"%s%s%s"` with no `?` separator, and the query
construction panics on any non-zero filter field, so whenever the URL is
built at all it is exactly the base followed by the bare path — it never
contains a `?` joining path and query. -/
theorem claim_C4_url_no_question_mark :
    ∀ (lib : UrlLib) (c : Client) (f : GetWebhookEventsFilter),
      getWebhookEventsURL lib c f = none ∨
      getWebhookEventsURL lib c f =
        some (c.APIBase ++ "/v1/notifications/webhook-events") := by
  intro lib c f
  rcases getWebhookEventsQuery_shape lib f with h | h <;>
    simp [getWebhookEventsURL, h]

/-- Claim C5.  `SetWebhook` on a webhook whose `ID` is the empty string
hands no request to the send collaborator and returns the caller-
precondition error, whatever the collaborator outcomes are. -/
theorem claim_C5_set_webhook_empty_id :
    ∀ (c : Client) (w : Webhook) (reqOut : ReqOutcome) (sendErr : Option GoError),
      w.ID = "" →
      setWebhook c w reqOut sendErr =
        ([], some { msg := "paypalsdk: no ID specified for Webhook" }) := by
  intro c w reqOut sendErr h
  simp [setWebhook, h]

/-- Witness for claim C5 at a concrete empty-id webhook. -/
theorem claim_C5_witness :
    setWebhook sampleClient { Webhook.zero with URL := "https://example.com/hook" } .ok none =
      ([], some { msg := "paypalsdk: no ID specified for Webhook" }) :=
  claim_C5_set_webhook_empty_id sampleClient
    { Webhook.zero with URL := "https://example.com/hook" } .ok none rfl

/-- Claim C6.  `SetWebhook` on a webhook with a non-empty `ID` hands the
send collaborator exactly one POST to
`/v1/notifications/webhooks/{id}` whose body is exactly the two `replace`
patches for `/url` and `/event_types`. -/
theorem claim_C6_set_webhook_request :
    ∀ (c : Client) (w : Webhook) (sendErr : Option GoError),
      w.ID ≠ "" →
      setWebhook c w .ok sendErr =
        ([{ method := "POST",
            url := c.APIBase ++ "/v1/notifications/webhooks/" ++ w.ID,
            body := .patches
              [ { Operation := "replace", Path := "/url", Value := .str w.URL },
                { Operation := "replace", Path := "/event_types",
                  Value := .eventTypes w.EventTypes } ] }], sendErr) := by
  intro c w sendErr h
  simp [setWebhook, h]

/-- Witness for claim C6 at a concrete webhook with id `wh_1`. -/
theorem claim_C6_witness :
    setWebhook sampleClient sampleWebhook .ok none =
      ([{ method := "POST",
          url := "https://api.sandbox.paypal.com/v1/notifications/webhooks/wh_1",
          body := .patches
            [ { Operation := "replace", Path := "/url",
                Value := .str "https://example.com/hook" },
              { Operation := "replace", Path := "/event_types",
                Value := .eventTypes [{ Name := "PAYMENT.SALE.COMPLETED" }] } ] }],
        none) := by
  have h := claim_C6_set_webhook_request sampleClient sampleWebhook none (by decide)
  exact h

/-- Claim C7.  After a send that succeeds with a decoded record, `GetWebhook`
and `GetWebhookEvent` return an error exactly when the decoded `ID` is the
empty string, and that error's message carries the requested id; the
decoded record itself is returned in both cases. -/
theorem claim_C7_empty_id_means_not_found :
    ∀ (c : Client) (reqID : String) (w : Webhook) (ev : Event),
      (getWebhook c reqID .ok (.ok w)).err =
        (if w.ID = "" then
          some { msg := "paypalsdk: unable to get web webhook with ID = " ++ reqID }
         else none) ∧
      (getWebhook c reqID .ok (.ok w)).result = some w ∧
      (getWebhookEvent c reqID .ok (.ok ev)).err =
        (if ev.ID = "" then
          some { msg := "paypalsdk: unable to get web event with ID = " ++ reqID }
         else none) ∧
      (getWebhookEvent c reqID .ok (.ok ev)).result = some ev := by
  intro c reqID w ev
  refine ⟨?_, ?_, ?_, ?_⟩
  · by_cases hw : w.ID = "" <;> simp [getWebhook, hw]
  · by_cases hw : w.ID = "" <;> simp [getWebhook, hw]
  · by_cases he : ev.ID = "" <;> simp [getWebhookEvent, he]
  · by_cases he : ev.ID = "" <;> simp [getWebhookEvent, he]

/-- Claim C8.  For every event id and webhook-id list, `ResendWebhookEvent`
hands the send collaborator exactly one POST to
`/v1/notifications/webhook-events/{eventID}/resend` whose body is the
webhook-id list, and on a successful send returns the decoded event with no
error. -/
theorem claim_C8_resend_request_and_result :
    ∀ (c : Client) (eventID : String) (webhookIDs : List String)
      (send : SendOutcome Event),
      (resendWebhookEvent c eventID webhookIDs .ok send).sent =
        [{ method := "POST",
           url := c.APIBase ++ "/v1/notifications/webhook-events/" ++ eventID ++ "/resend",
           body := .idList { WebhookIDs := webhookIDs } }] ∧
      ∀ ev : Event,
        resendWebhookEvent c eventID webhookIDs .ok (.ok ev) =
          { sent := [{ method := "POST",
                       url := c.APIBase ++ "/v1/notifications/webhook-events/" ++ eventID ++ "/resend",
                       body := .idList { WebhookIDs := webhookIDs } }],
            result := some ev, err := none } := by
  intro c eventID webhookIDs send
  constructor
  · cases send <;> rfl
  · intro ev; rfl

/-- Claim C9.  `ResendWebhookEvent`, `SimulateWebhookEvent` and
`VerifyWebhookSignature` return a nil result pointer exactly when they
return an error, for every collaborator outcome; `CreateWebhook` and
`GetWebhook` return a non-nil pointer on every path, errors included. -/
theorem claim_C9_nil_result_iff_error :
    ∀ (c : Client) (eventID : String) (webhookIDs : List String)
      (sr : SimulateEventReq) (wr : WebhookRequest) (w : Webhook) (getID : String)
      (reqOut : ReqOutcome) (se1 se2 : SendOutcome Event)
      (sv : SendOutcome VerificationStatus) (sw sg : SendOutcome Webhook),
      ((resendWebhookEvent c eventID webhookIDs reqOut se1).result = none ↔
        (resendWebhookEvent c eventID webhookIDs reqOut se1).err.isSome = true) ∧
      ((simulateWebhookEvent c sr reqOut se2).result = none ↔
        (simulateWebhookEvent c sr reqOut se2).err.isSome = true) ∧
      ((verifyWebhookSignature c wr reqOut sv).result = none ↔
        (verifyWebhookSignature c wr reqOut sv).err.isSome = true) ∧
      (createWebhook c w reqOut sw).result.isSome = true ∧
      (getWebhook c getID reqOut sg).result.isSome = true := by
  intro c eventID webhookIDs sr wr w getID reqOut se1 se2 sv sw sg
  refine ⟨?_, ?_, ?_, ?_, ?_⟩
  · cases reqOut <;> cases se1 <;> simp [resendWebhookEvent]
  · cases reqOut <;> cases se2 <;> simp [simulateWebhookEvent]
  · cases reqOut <;> cases sv <;> simp [verifyWebhookSignature]
  · cases reqOut <;> cases sw <;> simp [createWebhook]
  · cases reqOut <;> cases sg <;> (simp [getWebhook]; try (split <;> simp))

/-- Claim C10.  Two webhooks agreeing on `ID`, `URL` and `EventTypes` make
`SetWebhook` behave identically — same requests handed to the collaborator
(same target URL, same patch body) and same returned error — whatever their
remaining fields hold. -/
theorem claim_C10_update_depends_only_on_key_fields :
    ∀ (c : Client) (w1 w2 : Webhook) (reqOut : ReqOutcome) (sendErr : Option GoError),
      w1.ID = w2.ID → w1.URL = w2.URL → w1.EventTypes = w2.EventTypes →
      setWebhook c w1 reqOut sendErr = setWebhook c w2 reqOut sendErr := by
  intro c w1 w2 reqOut sendErr h1 h2 h3
  simp only [setWebhook, h1, h2, h3]

/-- Witness for claim C10: two webhooks that differ only in their `Links`
field produce the same update behaviour. -/
theorem claim_C10_witness :
    setWebhook sampleClient { sampleWebhook with Links := ["self"] } .ok none =
      setWebhook sampleClient { sampleWebhook with Links := ["delete"] } .ok none :=
  claim_C10_update_depends_only_on_key_fields sampleClient
    { sampleWebhook with Links := ["self"] }
    { sampleWebhook with Links := ["delete"] } .ok none rfl rfl rfl

end PaypalSdk
